import Mathlib

/-!
Shallow embedding of the live-view recording core of the ring-doorbell-recorder
repository (src/src/capture/live_view_client.py, src/src/capture/video_sinks.py,
src/src/capture/capture_engine.py, src/src/storage/storage_impl.py,
src/src/core/interfaces.py), together with theorems settling the specification
claims about it.  Each definition carries a pointer to the source lines it
embeds.
-/

namespace RingRec

/-! ### Class constants of LiveViewClient (live_view_client.py lines 33-50) -/

def PING_INTERVAL : Nat := 5

def MAX_DURATION : Nat := 590

def WS_PARAMS : String := "api_version=4.0&auth_type=ring_solutions"

def MAX_RETRIES : Nat := 3

def INITIAL_BACKOFF : Nat := 2

def MAX_BACKOFF : Nat := 30

def TICKET_CHECK_INTERVAL : Nat := 1800

def MAX_CONSECUTIVE_ERRORS : Nat := 3

/-- Python truthiness of an optional string value: None and the empty string are
falsy, every other string is truthy. -/
def pyTruthy : Option String → Bool
  | none => false
  | some s => s != ""

/-! ### Signalling ticket cache (live_view_client.py, _check_and_refresh_ticket,
lines 84-178)

The cache state is the triple of instance attributes the method reads and
writes: self._ticket, self._region, self._ticket_updated_at.  Wall-clock time
is modelled in whole seconds as a natural number. -/

structure TicketState where
  ticket : Option String
  region : Option String
  ticket_updated_at : Nat
  deriving Repr, DecidableEq

/-- Freshness test from lines 95-99: the cached ticket is reused when
self._ticket is truthy and (current_time - self._ticket_updated_at) is
strictly below TICKET_CHECK_INTERVAL (1800 s = 30 min). -/
def ticketIsFresh (st : TicketState) (now : Nat) : Bool :=
  pyTruthy st.ticket && decide (now - st.ticket_updated_at < TICKET_CHECK_INTERVAL)

/-- Outcome of one call to _get_ticket (lines 208-281) as observed by the retry
loop: a (ticket, region) pair with auth_error = False, an auth error
(None, None, True), or a raised exception. -/
inductive FetchOutcome where
  | ok (ticket : String) (region : Option String)
  | authError
  | exn
  deriving Repr, DecidableEq

/-- How the returned (ticket, region) pair was obtained. -/
inductive TicketSource where
  | cache
  | fetched
  | fallback
  | failed
  deriving Repr, DecidableEq

/-- Result of _check_and_refresh_ticket: the returned pair (none when the final
ValueError is raised), how it was obtained, and the state left behind. -/
structure TicketResult where
  outcome : Option (String × Option String)
  source : TicketSource
  state : TicketState
  deriving Repr, DecidableEq

/-- After the while loop (lines 172-178): if self._ticket is truthy it is
returned as a last resort with the state untouched, otherwise ValueError is
raised. -/
def ticketFallback (st : TicketState) : TicketResult :=
  if pyTruthy st.ticket then ⟨some (st.ticket.getD "", st.region), .fallback, st⟩
  else ⟨none, .failed, st⟩

/-- The while loop of lines 109-170, fuelled by the number of remaining
attempts (the loop runs while attempt < MAX_RETRIES, so exactly MAX_RETRIES
iterations unless a fetch succeeds).  fo gives the outcome of the fetch made
on each attempt, indexed from 1.  An auth error or missing ticket on the last
attempt raises inside the try block and is caught by the generic handler at
line 167, so every failing iteration alike proceeds to the next loop test; a
successful fetch stores the ticket, its region and the timestamp together
(lines 159-162) and returns. -/
def ticketRetryLoop : Nat → TicketState → Nat → (Nat → FetchOutcome) → TicketResult
  | 0, st, _, _ => ticketFallback st
  | remaining + 1, st, now, fo =>
    match fo (MAX_RETRIES - remaining) with
    | .ok t reg =>
      if t != "" then
        ⟨some (t, reg), .fetched, ⟨some t, reg, now⟩⟩
      else
        ticketRetryLoop remaining st now fo
    | .authError => ticketRetryLoop remaining st now fo
    | .exn => ticketRetryLoop remaining st now fo

/-- _check_and_refresh_ticket (lines 84-178): return the cached pair when it is
fresh, otherwise run the bounded retry loop. -/
def check_and_refresh_ticket (st : TicketState) (now : Nat)
    (fo : Nat → FetchOutcome) : TicketResult :=
  if ticketIsFresh st now then ⟨some (st.ticket.getD "", st.region), .cache, st⟩
  else ticketRetryLoop MAX_RETRIES st now fo

/-! ### WebSocket URL construction (live_view_client.py, _build_ws_url,
lines 484-518) -/

/-- _build_ws_url: raises ValueError on a falsy ticket; the host carries the
region segment and the devices.a2z.com suffix only when a region is present,
and falls back to api.prod.signalling.ring.com otherwise (lines 506-509);
the query string is WS_PARAMS plus client_id and token. -/
def build_ws_url (clientUuid : String) (ticket : Option String)
    (region : Option String) : Option String :=
  if !pyTruthy ticket then none
  else
    let client_id := "ring_site-" ++ clientUuid
    let host :=
      if pyTruthy region then
        "api." ++ region.getD "" ++ ".prod.signalling.ring.devices.a2z.com"
      else
        "api.prod.signalling.ring.com"
    some ("wss://" ++ host ++ "/ws?" ++ WS_PARAMS ++ "&client_id=" ++ client_id
      ++ "&token=" ++ ticket.getD "")

/-- Modelled from the spec: the WebSocket URL of section 4.3 step 5 with a
region present,
wss://api.(region).prod.signalling.ring.devices.a2z.com/ws?api_version=4.0&auth_type=ring_solutions&client_id=ring_site-(uuid)&token=(ticket). -/
def specWsUrlWithRegion (clientUuid regionCode ticket : String) : String :=
  "wss://api." ++ regionCode
    ++ ".prod.signalling.ring.devices.a2z.com/ws?api_version=4.0&auth_type=ring_solutions&client_id=ring_site-"
    ++ clientUuid ++ "&token=" ++ ticket

/-- Modelled from the spec: the same URL with only the region segment omitted
and the rest of the host unchanged, as the claim reads it. -/
def specWsUrlNoRegion (clientUuid ticket : String) : String :=
  "wss://api.prod.signalling.ring.devices.a2z.com/ws?api_version=4.0&auth_type=ring_solutions&client_id=ring_site-"
    ++ clientUuid ++ "&token=" ++ ticket

/-! ### Keepalive task (live_view_client.py, _keepalive_webrtc_session,
lines 742-797)

Each loop iteration constructs and sends one message; it is parametrised by
whether each send raises (False) or succeeds (True).  Sleeps are modelled in
whole seconds; the source decomposes the PING_INTERVAL sleep into 0.5 s slices
that poll the stop flag, which aggregate to PING_INTERVAL on an undisturbed
run. -/

structure KeepaliveMsg where
  method : String
  doorbot_id : Int
  session_id : String
  deriving Repr, DecidableEq

/-- One keepalive iteration: the message whose send was attempted, whether the
send succeeded, and how long the task then slept before the next iteration
(0 when the loop terminated instead of sleeping). -/
structure KeepaliveIter where
  msg : KeepaliveMsg
  sendOk : Bool
  sleepAfter : Nat
  deriving Repr, DecidableEq

/-- The keepalive loop, parametrised by the consecutive-error counter and the
per-iteration send outcomes.  Lines 757-765: the message sent is always
method "ping" with body doorbot_id = int(self._dev) and
session_id = session_jwt.  Success resets the error counter and sleeps
PING_INTERVAL; a failed send increments it, and on reaching
MAX_CONSECUTIVE_ERRORS the task calls stop() and breaks, otherwise it sleeps
1 s and continues. -/
def keepaliveLoop (dev : Int) (jwt : String) :
    Nat → List Bool → List KeepaliveIter × Bool
  | _, [] => ([], false)
  | c, o :: rest =>
    let msg : KeepaliveMsg := ⟨"ping", dev, jwt⟩
    if o then
      let r := keepaliveLoop dev jwt 0 rest
      (⟨msg, true, PING_INTERVAL⟩ :: r.1, r.2)
    else if MAX_CONSECUTIVE_ERRORS ≤ c + 1 then
      ([⟨msg, false, 0⟩], true)
    else
      let r := keepaliveLoop dev jwt (c + 1) rest
      (⟨msg, false, 1⟩ :: r.1, r.2)

/-- _keepalive_webrtc_session run from its initial state
(consecutive_errors = 0); the Bool records whether stop() was triggered by the
error limit. -/
def keepalive_webrtc_session (dev : Int) (jwt : String) (outcomes : List Bool) :
    List KeepaliveIter × Bool :=
  keepaliveLoop dev jwt 0 outcomes

/-- Reference predicate: the run of send outcomes contains
MAX_CONSECUTIVE_ERRORS consecutive failures, counted the way the loop counts
them (a success resets the count). -/
def hitsErrorLimit : Nat → List Bool → Bool
  | _, [] => false
  | _, true :: rest => hitsErrorLimit 0 rest
  | c, false :: rest =>
    if MAX_CONSECUTIVE_ERRORS ≤ c + 1 then true else hitsErrorLimit (c + 1) rest

/-! ### Inbound close-message handling (live_view_client.py lines 727-737 and
1117-1127) -/

/-- What a handler does with an inbound close message: whether it ends the
session, and how many milliseconds it sleeps before continuing when it does
not. -/
structure CloseDisposition where
  endsSession : Bool
  waitMs : Nat
  deriving Repr, DecidableEq

/-- Close handling inside _start_webrtc_session (lines 727-737): reason code 26
sleeps 0.3 s and continues the receive loop; any other reason raises
RuntimeError, ending the session. -/
def setupCloseHandler (code : Option Int) : CloseDisposition :=
  if code = some 26 then ⟨false, 300⟩ else ⟨true, 0⟩

/-- Close handling inside _monitor_message_handler (lines 1117-1127): a code
not in [26] calls stop() and breaks; code 26 falls through and the loop
continues immediately, with no sleep. -/
def monitorCloseHandler (code : Option Int) : CloseDisposition :=
  if code = some 26 then ⟨false, 0⟩ else ⟨true, 0⟩

/-! ### start() and its WebSocket retry path (live_view_client.py lines 283-482)

The model keeps the instance attributes the retry logic reads and writes, and
is parametrised by the outcome the environment gives each successive
WebSocket connect call.  Steps of the start sequence that the claims do not
exercise (account id, session id generation, peer connection, offer, ICE
gathering) are modelled as succeeding.  Logging calls are modelled as no-ops
(the source's logger.info at line 414 actually raises TypeError because of the
backoff_seconds keyword; either way the retried attempt cannot succeed, see
the C3 theorem). -/

/-- Outcome the environment gives one websockets connect call (line 364). -/
inductive WsOutcome where
  | ok
  | httpError (code : Nat)
  | netError
  deriving Repr, DecidableEq

structure ClientState where
  stopFlag : Bool
  connection_attempts : Nat
  connection_backoff : Nat
  ticket_updated_at_zeroed : Bool
  deriving Repr, DecidableEq

/-- State of a freshly constructed LiveViewClient (lines 64-82). -/
def initialClientState : ClientState :=
  ⟨false, 0, INITIAL_BACKOFF, true⟩

/-- stop() (lines 831-892) sets self._stop; nothing in the class ever clears
it again. -/
def stopClient (st : ClientState) : ClientState := { st with stopFlag := true }

/-- Line 379: an auth-like WebSocket handshake failure is one whose message
contains 401, 403 or 404. -/
def isAuthLikeWsError : WsOutcome → Bool
  | .httpError c => c == 401 || c == 403 || c == 404
  | _ => false

/-- Result of a start() call: its return value, the state left behind, and the
backoff sleeps performed (in seconds, in order). -/
structure StartResult where
  success : Bool
  state : ClientState
  sleeps : List Nat
  deriving Repr, DecidableEq

/-- start() (lines 283-482), fuelled to bound the recursive retries.  Control
flow per invocation:
line 294 increments connection_attempts; lines 302-310 refresh the token and
force a ticket refresh; lines 314-360 are modelled as succeeding; line 364
connects the WebSocket, consuming the next environment outcome.
On success (lines 370-373) the attempt counter and backoff reset, then
_start_webrtc_session runs: its receive loop raises RuntimeError as soon as
the stop flag is set (lines 650-652), which lands in the outer handler at
line 461; with the stop flag clear the signalling completes and start returns
True.  On an auth-like handshake error with attempts below MAX_RETRIES
(lines 381-421) the client zeroes ticket_updated_at, calls stop(), sleeps
min(backoff, MAX_BACKOFF), doubles the backoff and calls start() again; other
handshake errors re-raise into the outer handler (lines 461-482), which
retries the same way while attempts < MAX_RETRIES and the stop flag is clear,
and otherwise stops and returns False. -/
def startAux : Nat → ClientState → List WsOutcome → StartResult
  | 0, st, _ => ⟨false, st, []⟩
  | fuel + 1, st0, outcomes =>
    let st1 : ClientState :=
      { st0 with connection_attempts := st0.connection_attempts + 1,
                 ticket_updated_at_zeroed := true }
    match outcomes with
    | [] => ⟨false, st1, []⟩
    | o :: rest =>
      match o with
      | .ok =>
        let st2 : ClientState :=
          { st1 with connection_attempts := 0,
                     connection_backoff := INITIAL_BACKOFF }
        if st2.stopFlag then
          -- RuntimeError "Client stopped during session setup" → outer handler
          if decide (st2.connection_attempts < MAX_RETRIES) && !st2.stopFlag then
            let st3 := stopClient st2
            let b := min st3.connection_backoff MAX_BACKOFF
            let st4 := { st3 with connection_backoff := st3.connection_backoff * 2 }
            let r := startAux fuel st4 rest
            ⟨r.success, r.state, b :: r.sleeps⟩
          else
            ⟨false, stopClient st2, []⟩
        else
          ⟨true, st2, []⟩
      | _ =>
        if isAuthLikeWsError o && decide (st1.connection_attempts < MAX_RETRIES) then
          let st2 := { st1 with ticket_updated_at_zeroed := true }
          let st3 := stopClient st2
          let b := min st3.connection_backoff MAX_BACKOFF
          let st4 := { st3 with connection_backoff := st3.connection_backoff * 2 }
          let r := startAux fuel st4 rest
          ⟨r.success, r.state, b :: r.sleeps⟩
        else
          -- ws_error re-raised → outer handler at line 461
          if decide (st1.connection_attempts < MAX_RETRIES) && !st1.stopFlag then
            let st3 := stopClient st1
            let b := min st3.connection_backoff MAX_BACKOFF
            let st4 := { st3 with connection_backoff := st3.connection_backoff * 2 }
            let r := startAux fuel st4 rest
            ⟨r.success, r.state, b :: r.sleeps⟩
          else
            ⟨false, stopClient st1, []⟩

/-- start() called on a fresh client, with enough fuel for its bounded
retries. -/
def startClient (outcomes : List WsOutcome) : StartResult :=
  startAux (MAX_RETRIES + 1) initialClientState outcomes

/-! ### RecorderSink (video_sinks.py lines 16-102) and its construction by the
Recording Supervisor (capture_engine.py line 352) -/

/-- The parameters of RecorderSink.__init__ besides self (video_sinks.py
line 23): def __init__(self, path). -/
def recorderSinkInitParams : List String := ["path"]

/-- The construction in CaptureEngine.start_live_view line 352,
RecorderSink(video_path, callback=recording_completed): one positional
argument and one keyword argument. -/
def captureEngineSinkCallPositionals : Nat := 1

def captureEngineSinkCallKwargs : List String := ["callback"]

/-- Python call binding for a signature without *args or **kwargs: the call
binds iff the positional arguments fit and every keyword names a parameter
that is not already bound positionally; otherwise TypeError is raised. -/
def pythonCallBinds (params : List String) (npos : Nat)
    (kwargs : List String) : Bool :=
  decide (npos ≤ params.length)
    && kwargs.all (fun k => (params.drop npos).contains k)

/-- The effects RecorderSink.close performs, in order (video_sinks.py
lines 65-102). -/
inductive SinkCloseEffect where
  | ensureStarted
  | flushDelay
  | stopRecorder
  | clearRecorder
  | verifyOutputFile
  | returnPath
  | invokeCompletionCallback
  deriving Repr, DecidableEq

/-- RecorderSink.close body: start the recorder if it never started, sleep
0.5 s to flush, stop the MediaRecorder, clear self._rec, check that the
output file exists and log its size, and return the path.  The method body
contains no callback invocation of any kind. -/
def recorderSinkCloseEffects : List SinkCloseEffect :=
  [.ensureStarted, .flushDelay, .stopRecorder, .clearRecorder,
   .verifyOutputFile, .returnPath]

/-! ### Recording Supervisor slot lifecycle (capture_engine.py)

The trigger handlers _handle_ding_event / _handle_motion_event
(lines 130-198) check self._active_recordings, insert the device's slot, and
await start_live_view; the finally block pops the slot as soon as that await
returns.  start_live_view (lines 285-378) returns right after client.start()
reports the session is up (line 363, "Just return the path ... once it's
actually done recording"), while the client's media and timeout tasks keep the
recording running until MAX_DURATION or stop().  The trace model below makes
those three points explicit: a trigger arriving, the awaited start_live_view
returning (successfully or not), and the client's recording actually ending.
Between the membership test at line 145/181 and the insertion at line 152/188
the handler never awaits, so in the cooperative scheduling model the
check-and-insert is one step. -/

inductive RecPhase where
  | negotiating
  | recording
  deriving Repr, DecidableEq

structure RecSession where
  device : String
  event_id : String
  phase : RecPhase
  deriving Repr, DecidableEq

structure EngineState where
  active_recordings : List (String × String)
  sessions : List RecSession
  deriving Repr, DecidableEq

def engineInit : EngineState := ⟨[], []⟩

/-- Membership test device_id in self._active_recordings (line 145/181). -/
def slotLookup (s : EngineState) (d : String) : Option String :=
  (s.active_recordings.find? (fun p => p.1 == d)).map (fun p => p.2)

inductive EngineEvent where
  | trigger (d e : String)
  | startReturns (d e : String) (success : Bool)
  | sessionEnds (d e : String)
  deriving Repr, DecidableEq

/-- One scheduling step of the Supervisor.
trigger: if the device already has a slot the event is dropped (log and
return, lines 145-147/181-183); otherwise the slot is inserted (line 152/188)
and a client begins negotiating.
startReturns: the awaited start_live_view returned; the finally block pops the
slot (line 164/198) whether it succeeded or not; on success the client's
recording continues in its own tasks.
sessionEnds: the client's timeout guard or stop() finishes the recording. -/
def engineStep (s : EngineState) (ev : EngineEvent) : EngineState :=
  match ev with
  | .trigger d e =>
    if (slotLookup s d).isSome then s
    else
      { active_recordings := (d, e) :: s.active_recordings,
        sessions := ⟨d, e, .negotiating⟩ :: s.sessions }
  | .startReturns d e ok =>
    if s.sessions.contains ⟨d, e, .negotiating⟩ then
      { active_recordings := s.active_recordings.filter (fun p => p.1 != d),
        sessions :=
          if ok then
            s.sessions.map (fun r =>
              if r = ⟨d, e, .negotiating⟩ then ⟨d, e, .recording⟩ else r)
          else
            s.sessions.filter (fun r => r != ⟨d, e, RecPhase.negotiating⟩) }
    else s
  | .sessionEnds d e =>
    { s with sessions := s.sessions.filter (fun r => r != ⟨d, e, RecPhase.recording⟩) }

def runEngine (evs : List EngineEvent) : EngineState :=
  evs.foldl engineStep engineInit

/-- The schedule that exhibits the slot-lifecycle bug: a motion trigger whose
session negotiation succeeds, followed by a second trigger for the same device
while the first 20 s recording is still running. -/
def c1FailingTrace : List EngineEvent :=
  [.trigger "dev-9" "evt-1", .startReturns "dev-9" "evt-1" true,
   .trigger "dev-9" "evt-2", .startReturns "dev-9" "evt-2" true]

/-! ### Event records and the storage backends (core/interfaces.py lines 10-37,
storage/storage_impl.py)

An event record is the pydantic EventData with its kind-specific subclass
fields and the extra passthrough fields that Config extra = "allow" keeps.
JSON values are modelled by JValue; json.dump followed by json.load is the
identity on dicts of such values, so serialisation is modelled at the dict
level.  Numbers carry a rational value (Python round-trips every finite float
exactly through json). -/

inductive JValue where
  | s (v : String)
  | b (v : Bool)
  | num (v : Rat)
  | null
  deriving Repr, DecidableEq

/-- The kind-specific declared fields: answered (ding, required),
motion_detection_score (motion, optional), requester (on_demand, optional);
any other kind has only the base fields. -/
inductive KindFields where
  | ding (answered : Bool)
  | motion (motion_detection_score : Option Rat)
  | onDemand (requester : Option String)
  | generic
  deriving Repr, DecidableEq

structure EventRecord where
  id : String
  kind : String
  created_at : String
  device_id : String
  device_name : String
  has_video : Bool
  video_path : Option String
  kindFields : KindFields
  extra : List (String × JValue)
  deriving Repr, DecidableEq

/-- The declared field names of the base EventData model. -/
def baseKeys : List String :=
  ["id", "kind", "created_at", "device_id", "device_name", "has_video",
   "video_path"]

/-- The extra declared field names of the record's own subclass. -/
def kindKeys : KindFields → List String
  | .ding _ => ["answered"]
  | .motion _ => ["motion_detection_score"]
  | .onDemand _ => ["requester"]
  | .generic => []

/-- The kind string matches the subclass carrying the kind-specific fields,
as _process_event and both retrieve_event implementations pair them. -/
def kindMatchesFields (kind : String) : KindFields → Bool
  | .ding _ => kind == "ding"
  | .motion _ => kind == "motion"
  | .onDemand _ => kind == "on_demand"
  | .generic => kind != "ding" && kind != "motion" && kind != "on_demand"

/-- A record of the data model: the kind string and the subclass fields agree,
and the passthrough extras do not collide with a declared field name (pydantic
would treat such a key as the declared field itself). -/
def wfEventRecord (r : EventRecord) : Bool :=
  kindMatchesFields r.kind r.kindFields
    && r.extra.all (fun kv => !(baseKeys ++ kindKeys r.kindFields).contains kv.1)

def optStrJ : Option String → JValue
  | some v => .s v
  | none => .null

def kindFieldsEntries : KindFields → List (String × JValue)
  | .ding a => [("answered", .b a)]
  | .motion sc =>
    [("motion_detection_score", match sc with | some q => .num q | none => .null)]
  | .onDemand rq => [("requester", optStrJ rq)]
  | .generic => []

/-- event.dict(): every declared field followed by the extra passthrough
fields. -/
def eventToDict (r : EventRecord) : List (String × JValue) :=
  [("id", .s r.id), ("kind", .s r.kind), ("created_at", .s r.created_at),
   ("device_id", .s r.device_id), ("device_name", .s r.device_name),
   ("has_video", .b r.has_video), ("video_path", optStrJ r.video_path)]
  ++ kindFieldsEntries r.kindFields ++ r.extra

def dictGet (d : List (String × JValue)) (k : String) : Option JValue :=
  (d.find? (fun kv => kv.1 == k)).map (fun kv => kv.2)

def parseStrField (d : List (String × JValue)) (k : String) : Option String :=
  match dictGet d k with
  | some (.s v) => some v
  | _ => none

/-- parse_obj of the kind-selected subclass, restricted to the kind-specific
fields: answered is required for ding; the optional fields default to None
when absent and accept an explicit null. -/
def parseKindFields (kind : String) (d : List (String × JValue)) :
    Option KindFields :=
  if kind == "ding" then
    match dictGet d "answered" with
    | some (.b a) => some (.ding a)
    | _ => none
  else if kind == "motion" then
    match dictGet d "motion_detection_score" with
    | some (.num q) => some (.motion (some q))
    | some .null => some (.motion none)
    | none => some (.motion none)
    | _ => none
  else if kind == "on_demand" then
    match dictGet d "requester" with
    | some (.s v) => some (.onDemand (some v))
    | some .null => some (.onDemand none)
    | none => some (.onDemand none)
    | _ => none
  else
    some .generic

/-- parse_obj of the class selected by the dict's kind field, as both
retrieve_event implementations do: the five identification fields and kind
are required strings, has_video defaults to False, video_path to None, and
every key that is not declared on the selected class is kept as an extra
passthrough field. -/
def parseEventDict (d : List (String × JValue)) : Option EventRecord := do
  let id0 ← parseStrField d "id"
  let kind0 ← parseStrField d "kind"
  let created0 ← parseStrField d "created_at"
  let dev0 ← parseStrField d "device_id"
  let name0 ← parseStrField d "device_name"
  let hv ← match dictGet d "has_video" with
    | some (.b v) => some v
    | none => some false
    | _ => none
  let vp ← match dictGet d "video_path" with
    | some (.s v) => some (some v)
    | some .null => some none
    | none => some none
    | _ => none
  let kf ← parseKindFields kind0 d
  some ⟨id0, kind0, created0, dev0, name0, hv, vp, kf,
    d.filter (fun kv => !(baseKeys ++ kindKeys kf).contains kv.1)⟩

namespace FileStorage

/-- The files a FileStorage root holds, keyed by the event.json path
(device_id, kind, id). -/
structure Store where
  files : List ((String × String × String) × List (String × JValue))
  deriving Repr, DecidableEq

/-- FileStorage.save_event (storage_impl.py lines 211-233): serialise
event.dict() to (root)/(device_id)/(kind)/(id)/event.json, overwriting any
existing file at that path, and return True unconditionally. -/
def save_event (st : Store) (r : EventRecord) : Bool × Store :=
  let key := (r.device_id, r.kind, r.id)
  (true, ⟨(key, eventToDict r) :: st.files.filter (fun f => f.1 != key)⟩)

/-- FileStorage.retrieve_event (lines 235-265): glob
(root)/**/**/(id)/event.json and parse the first match with the class chosen
by its kind field. -/
def retrieve_event (st : Store) (id0 : String) : Option EventRecord :=
  match st.files.find? (fun f => f.1.2.2 == id0) with
  | some f => parseEventDict f.2
  | none => none

end FileStorage

namespace NetworkStorage

/-- The objects under a NetworkStorage base URL, keyed the same way; the
fsspec backend differs but save_event / retrieve_event run the identical
algorithm (storage_impl.py lines 420-474). -/
structure Store where
  files : List ((String × String × String) × List (String × JValue))
  deriving Repr, DecidableEq

/-- NetworkStorage.save_event (lines 420-442): write event.dict() as
(url)/(device_id)/(kind)/(id)/event.json and return True. -/
def save_event (st : Store) (r : EventRecord) : Bool × Store :=
  let key := (r.device_id, r.kind, r.id)
  (true, ⟨(key, eventToDict r) :: st.files.filter (fun f => f.1 != key)⟩)

/-- NetworkStorage.retrieve_event (lines 444-474): glob by id and parse the
first match by its kind field. -/
def retrieve_event (st : Store) (id0 : String) : Option EventRecord :=
  match st.files.find? (fun f => f.1.2.2 == id0) with
  | some f => parseEventDict f.2
  | none => none

end NetworkStorage

namespace DatabaseStorage

/-- The standard_fields set of DatabaseStorage.save_event (line 50). -/
def standard_fields : List String :=
  ["id", "kind", "created_at", "device_id", "device_name"]

/-- A ring_events row: the five standard columns plus the event_data JSON. -/
structure Row where
  id : String
  kind : String
  created_at : String
  device_id : String
  device_name : String
  event_data : List (String × JValue)
  deriving Repr, DecidableEq

structure Store where
  rows : List Row
  deriving Repr, DecidableEq

/-- DatabaseStorage.save_event (storage_impl.py lines 36-85): split
event.dict() into the five standard columns and an event_data JSON of the
remaining keys, then session.merge upserts the row by primary key id and the
method returns True. -/
def save_event (st : Store) (r : EventRecord) : Bool × Store :=
  let row : Row :=
    ⟨r.id, r.kind, r.created_at, r.device_id, r.device_name,
      (eventToDict r).filter (fun kv => !standard_fields.contains kv.1)⟩
  (true, ⟨row :: st.rows.filter (fun q => q.id != r.id)⟩)

/-- DatabaseStorage.retrieve_event (lines 87-130): select the row by id,
rebuild the dict from the standard columns updated with the event_data JSON,
and parse it with the class chosen by the kind column. -/
def retrieve_event (st : Store) (id0 : String) : Option EventRecord :=
  match st.rows.find? (fun q => q.id == id0) with
  | some row =>
    parseEventDict
      ([("id", .s row.id), ("kind", .s row.kind),
        ("created_at", .s row.created_at), ("device_id", .s row.device_id),
        ("device_name", .s row.device_name)] ++ row.event_data)
  | none => none

end DatabaseStorage

/-! ## Theorems -/

/-- Helper: once stop() has run, every later start() invocation fails: the
stop flag is never cleared, so even a successful WebSocket connect aborts in
_start_webrtc_session, and the outer handler refuses to retry with the flag
set. -/
theorem startAux_stopFlag_never_succeeds (fuel : Nat) :
    ∀ (st : ClientState) (outcomes : List WsOutcome), st.stopFlag = true →
      (startAux fuel st outcomes).success = false := by
  induction fuel with
  | zero => intro st outcomes h; rfl
  | succ n ih =>
    intro st outcomes h
    match outcomes with
    | [] => rfl
    | o :: rest =>
      cases o with
      | ok => simp [startAux, h]
      | httpError c =>
        simp only [startAux]
        split
        · exact ih _ rest rfl
        · simp [h]
      | netError =>
        simp only [startAux]
        split
        · exact ih _ rest rfl
        · simp [h]

/-- C1: the recording-slot entry is popped by the handler's finally block as
soon as the awaited start_live_view returns, which happens right after the
live-view session starts, not when the recording ends.  Running the model on
a schedule where a first motion trigger's session starts successfully and a
second trigger for the same device arrives while that 20 s recording is still
in progress: the second trigger is accepted rather than dropped, the device
ends up with two simultaneously in-progress recordings, and the slot map is
already empty throughout. -/
theorem slot_released_before_recording_ends :
    ((runEngine c1FailingTrace).sessions.filter
        (fun r => r.device == "dev-9" && decide (r.phase = RecPhase.recording))).length = 2
      ∧ (runEngine c1FailingTrace).active_recordings = [] := by
  decide

/-- C2: RecorderSink.__init__ accepts only a path, so the Recording
Supervisor's construction RecorderSink(video_path, callback=recording_completed)
raises TypeError, and RecorderSink.close never invokes any completion
callback. -/
theorem recorder_sink_has_no_completion_callback :
    pythonCallBinds recorderSinkInitParams captureEngineSinkCallPositionals
        captureEngineSinkCallKwargs = false
      ∧ SinkCloseEffect.invokeCompletionCallback ∉ recorderSinkCloseEffects := by
  decide

/-- C3: scenario E4 run on the code.  The first WebSocket connect fails with
HTTP 404; the client forces a ticket refresh, calls stop(), waits the 2 s
initial backoff and retries - but stop() set the never-cleared stop flag, so
although the second connect succeeds, _start_webrtc_session aborts and
start() returns False.  A retried attempt can never complete the start
sequence. -/
theorem ws404_retry_cannot_succeed :
    startClient [WsOutcome.httpError 404, WsOutcome.ok] =
      ⟨false, ⟨true, 0, INITIAL_BACKOFF, true⟩, [INITIAL_BACKOFF]⟩ := by
  decide

/-- C4 counterexample: with no region the code does not merely omit the
region segment - it switches to the host api.prod.signalling.ring.com,
dropping the devices.a2z.com suffix the claim keeps. -/
theorem ws_url_no_region_host_differs :
    build_ws_url "u" (some "tkt") none
        = some "wss://api.prod.signalling.ring.com/ws?api_version=4.0&auth_type=ring_solutions&client_id=ring_site-u&token=tkt"
      ∧ build_ws_url "u" (some "tkt") none ≠ some (specWsUrlNoRegion "u" "tkt") := by
  decide

/-- Helper: fuse two adjacent appended strings. -/
theorem strFuse (X a b c : String) (h : a ++ b = c) : X ++ a ++ b = X ++ c := by
  rw [String.append_assoc, h]

/-- C4 amended: for a truthy ticket, with a (truthy) region the WebSocket URL
is exactly the one the spec states; with no region the host is
api.prod.signalling.ring.com instead, the rest of the URL unchanged. -/
theorem ws_url_by_region (u t r0 : String) (ht : t ≠ "") (hr : r0 ≠ "") :
    build_ws_url u (some t) (some r0) = some (specWsUrlWithRegion u r0 t)
      ∧ build_ws_url u (some t) none
        = some ("wss://api.prod.signalling.ring.com/ws?api_version=4.0&auth_type=ring_solutions&client_id=ring_site-"
            ++ u ++ "&token=" ++ t) := by
  have htb : (t != "") = true := by simpa [bne_iff_ne] using ht
  have hrb : (r0 != "") = true := by simpa [bne_iff_ne] using hr
  constructor
  · simp only [build_ws_url, specWsUrlWithRegion, WS_PARAMS, pyTruthy, htb, hrb,
      Bool.not_true, Bool.false_eq_true, if_false, if_true, Option.getD]
    congr 1
    simp only [← String.append_assoc]
    rw [show ("wss://" ++ "api." : String) = "wss://api." from rfl]
    rw [strFuse _ ".prod.signalling.ring.devices.a2z.com" "/ws?"
      ".prod.signalling.ring.devices.a2z.com/ws?" rfl]
    rw [strFuse _ ".prod.signalling.ring.devices.a2z.com/ws?"
      "api_version=4.0&auth_type=ring_solutions"
      ".prod.signalling.ring.devices.a2z.com/ws?api_version=4.0&auth_type=ring_solutions" rfl]
    rw [strFuse _
      ".prod.signalling.ring.devices.a2z.com/ws?api_version=4.0&auth_type=ring_solutions"
      "&client_id="
      ".prod.signalling.ring.devices.a2z.com/ws?api_version=4.0&auth_type=ring_solutions&client_id=" rfl]
    rw [strFuse _
      ".prod.signalling.ring.devices.a2z.com/ws?api_version=4.0&auth_type=ring_solutions&client_id="
      "ring_site-"
      ".prod.signalling.ring.devices.a2z.com/ws?api_version=4.0&auth_type=ring_solutions&client_id=ring_site-" rfl]
  · simp only [build_ws_url, WS_PARAMS, pyTruthy, htb,
      Bool.not_true, Bool.false_eq_true, if_false, if_true, Option.getD]
    congr 1

/-- Witness for ws_url_by_region at uuid u, ticket tkt, region eu. -/
theorem ws_url_by_region_witness :
    build_ws_url "u" (some "tkt") (some "eu") = some (specWsUrlWithRegion "u" "eu" "tkt")
      ∧ build_ws_url "u" (some "tkt") none
        = some ("wss://api.prod.signalling.ring.com/ws?api_version=4.0&auth_type=ring_solutions&client_id=ring_site-"
            ++ "u" ++ "&token=" ++ "tkt") :=
  ws_url_by_region "u" "tkt" "eu" (by decide) (by decide)

/-- C5 counterexample: a 20 s all-success keepalive run (four iterations; the
task tracks no peer activity anywhere) sends only ping messages; no refresh
message is sent although more than 15 s pass without observed peer
activity. -/
theorem keepalive_never_sends_refresh :
    ((keepalive_webrtc_session 9 "jwt" [true, true, true, true]).1.map
        (fun it => it.msg.method)) = ["ping", "ping", "ping", "ping"]
      ∧ "refresh" ∉ ((keepalive_webrtc_session 9 "jwt" [true, true, true, true]).1.map
          (fun it => it.msg.method)) := by
  decide

/-- Helper: the keepalive loop, from any error count, attempts only ping
messages carrying the doorbot id and the session JWT, sleeps PING_INTERVAL
after every successful send, and calls stop() exactly when the outcomes reach
MAX_CONSECUTIVE_ERRORS consecutive failures. -/
theorem keepaliveLoop_ping_only (dev : Int) (jwt : String) :
    ∀ (outcomes : List Bool) (c : Nat),
      ((keepaliveLoop dev jwt c outcomes).1.all
          (fun it => decide (it.msg = ⟨"ping", dev, jwt⟩)
            && (!it.sendOk || decide (it.sleepAfter = PING_INTERVAL)))) = true
        ∧ (keepaliveLoop dev jwt c outcomes).2 = hitsErrorLimit c outcomes := by
  intro outcomes
  induction outcomes with
  | nil => intro c; exact ⟨rfl, rfl⟩
  | cons o rest ih =>
    intro c
    cases o with
    | true =>
      simpa [keepaliveLoop, hitsErrorLimit] using ih 0
    | false =>
      by_cases hc : MAX_CONSECUTIVE_ERRORS ≤ c + 1
      · simp [keepaliveLoop, hitsErrorLimit, hc]
      · simpa [keepaliveLoop, hitsErrorLimit, hc] using ih (c + 1)

/-- C5 amended: every message the keepalive task sends is
ping with body doorbot_id and session_id = session_jwt, sent every
PING_INTERVAL = 5 s; there is no activity tracking and no refresh message;
stop() is triggered exactly when MAX_CONSECUTIVE_ERRORS = 3 consecutive sends
fail. -/
theorem keepalive_ping_every_interval_stop_on_three_failures
    (dev : Int) (jwt : String) (outcomes : List Bool) :
    ((keepalive_webrtc_session dev jwt outcomes).1.all
        (fun it => decide (it.msg = ⟨"ping", dev, jwt⟩)
          && (!it.sendOk || decide (it.sleepAfter = PING_INTERVAL)))) = true
      ∧ (keepalive_webrtc_session dev jwt outcomes).2 = hitsErrorLimit 0 outcomes :=
  keepaliveLoop_ping_only dev jwt outcomes 0

/-- C8 counterexample: in the connected-phase monitor handler a close with
reason code 26 continues the loop immediately - there is no 300 ms wait
there, refuting the claim that every code-26 close is followed by a 300 ms
wait. -/
theorem monitor_close26_does_not_wait :
    monitorCloseHandler (some 26) = ⟨false, 0⟩
      ∧ (monitorCloseHandler (some 26)).waitMs ≠ 300 := by
  decide

/-- C8 amended: in both inbound close handlers a close with reason code 26
never ends the session and any other close ends it; the session-setup handler
waits 300 ms before continuing on code 26, while the monitor handler
continues without waiting. -/
theorem close26_never_ends_session (code : Option Int) :
    ((setupCloseHandler code).endsSession = false ↔ code = some 26)
      ∧ ((monitorCloseHandler code).endsSession = false ↔ code = some 26)
      ∧ (setupCloseHandler (some 26)).waitMs = 300
      ∧ (monitorCloseHandler (some 26)).waitMs = 0 := by
  by_cases h : code = some 26 <;>
    simp [setupCloseHandler, monitorCloseHandler, h]

/-- Helper: the refresh retry loop never reports the cache as its source. -/
theorem ticketRetryLoop_source_ne_cache :
    ∀ (remaining : Nat) (st : TicketState) (now : Nat) (fo : Nat → FetchOutcome),
      (ticketRetryLoop remaining st now fo).source ≠ TicketSource.cache := by
  intro remaining
  induction remaining with
  | zero =>
    intro st now fo
    simp only [ticketRetryLoop, ticketFallback]
    split <;> simp
  | succ n ih =>
    intro st now fo
    simp only [ticketRetryLoop]
    cases h : fo (MAX_RETRIES - n) with
    | ok t reg =>
      by_cases ht : (t != "") = true
      · simp [ht]
      · simp only [ht, if_false, Bool.false_eq_true]
        exact ih st now fo
    | authError => exact ih st now fo
    | exn => exact ih st now fo

/-- C6: the cached (ticket, region) pair is reused without any refresh attempt
exactly when a ticket is stored and its age is strictly below
TICKET_CHECK_INTERVAL = 1800 s; in particular an age exactly equal to the
limit goes down the refresh path.  When the cache is used, the returned pair
is the stored one. -/
theorem ticket_cache_used_iff_fresh (st : TicketState) (now : Nat)
    (fo : Nat → FetchOutcome) :
    ((check_and_refresh_ticket st now fo).source = TicketSource.cache
        ↔ (pyTruthy st.ticket = true
            ∧ now - st.ticket_updated_at < TICKET_CHECK_INTERVAL))
      ∧ ((check_and_refresh_ticket st now fo).source = TicketSource.cache →
          (check_and_refresh_ticket st now fo).outcome
            = some (st.ticket.getD "", st.region)) := by
  by_cases hf : ticketIsFresh st now = true
  · have hf2 : pyTruthy st.ticket = true
        ∧ now - st.ticket_updated_at < TICKET_CHECK_INTERVAL := by
      simpa [ticketIsFresh, Bool.and_eq_true, decide_eq_true_eq] using hf
    constructor
    · simp [check_and_refresh_ticket, hf, hf2]
    · intro _
      simp [check_and_refresh_ticket, hf]
  · have hff : ticketIsFresh st now = false := by
      revert hf; cases ticketIsFresh st now <;> simp
    have hloop := ticketRetryLoop_source_ne_cache MAX_RETRIES st now fo
    have hsrcne : (check_and_refresh_ticket st now fo).source ≠ TicketSource.cache := by
      simpa [check_and_refresh_ticket, hff] using hloop
    constructor
    · constructor
      · intro hsrc
        exact absurd hsrc hsrcne
      · rintro ⟨h1, h2⟩
        exact absurd (show ticketIsFresh st now = true by
          simp [ticketIsFresh, h1, h2]) hf
    · intro hsrc
      exact absurd hsrc hsrcne

/-- Witness for ticket_cache_used_iff_fresh: a ticket 10 s old is reused with
its region. -/
theorem ticket_cache_used_iff_fresh_witness :
    (check_and_refresh_ticket ⟨some "tk", some "eu", 0⟩ 10
        (fun _ => FetchOutcome.exn)).source = TicketSource.cache
      ∧ (check_and_refresh_ticket ⟨some "tk", some "eu", 0⟩ 10
          (fun _ => FetchOutcome.exn)).outcome = some ("tk", some "eu") := by
  have h := ticket_cache_used_iff_fresh ⟨some "tk", some "eu", 0⟩ 10
    (fun _ => FetchOutcome.exn)
  exact ⟨h.1.mpr (by decide), h.2 (h.1.mpr (by decide))⟩

/-- Helper: the refresh retry loop either stores the fetched ticket, region
and timestamp together, or (stale fallback) leaves the whole state untouched
and returns the previously stored pair. -/
theorem ticketRetryLoop_state_spec :
    ∀ (remaining : Nat) (st : TicketState) (now : Nat) (fo : Nat → FetchOutcome),
      ((ticketRetryLoop remaining st now fo).source = TicketSource.fetched →
          ∀ t reg, (ticketRetryLoop remaining st now fo).outcome = some (t, reg) →
            (ticketRetryLoop remaining st now fo).state = ⟨some t, reg, now⟩)
        ∧ ((ticketRetryLoop remaining st now fo).source = TicketSource.fallback →
            (ticketRetryLoop remaining st now fo).state = st
              ∧ (ticketRetryLoop remaining st now fo).outcome
                  = some (st.ticket.getD "", st.region)) := by
  intro remaining
  induction remaining with
  | zero =>
    intro st now fo
    by_cases hp : pyTruthy st.ticket = true
    · constructor
      · intro hsrc
        exfalso
        simp [ticketRetryLoop, ticketFallback, hp] at hsrc
      · intro _
        simp [ticketRetryLoop, ticketFallback, hp]
    · constructor
      · intro hsrc
        exfalso
        simp [ticketRetryLoop, ticketFallback, hp] at hsrc
      · intro hsrc
        exfalso
        simp [ticketRetryLoop, ticketFallback, hp] at hsrc
  | succ n ih =>
    intro st now fo
    simp only [ticketRetryLoop]
    cases h : fo (MAX_RETRIES - n) with
    | ok t reg =>
      by_cases ht : (t != "") = true
      · simp only [ht, if_true]
        constructor
        · intro _ t2 reg2 hout
          simp only [Option.some.injEq, Prod.mk.injEq] at hout
          rw [← hout.1, ← hout.2]
        · intro hsrc
          simp at hsrc
      · simp only [ht, if_false, Bool.false_eq_true]
        exact ih st now fo
    | authError => exact ih st now fo
    | exn => exact ih st now fo

/-- C7: a successful fetch updates the stored ticket, its region and the
refresh timestamp together; when every refresh attempt fails and a stored
ticket exists, that stored pair is returned and the state - ticket, region
and timestamp - is left unchanged. -/
theorem ticket_update_and_fallback_frame (st : TicketState) (now : Nat)
    (fo : Nat → FetchOutcome) :
    ((check_and_refresh_ticket st now fo).source = TicketSource.fetched →
        ∀ t reg, (check_and_refresh_ticket st now fo).outcome = some (t, reg) →
          (check_and_refresh_ticket st now fo).state = ⟨some t, reg, now⟩)
      ∧ ((check_and_refresh_ticket st now fo).source = TicketSource.fallback →
          (check_and_refresh_ticket st now fo).state = st
            ∧ (check_and_refresh_ticket st now fo).outcome
                = some (st.ticket.getD "", st.region)) := by
  by_cases hf : ticketIsFresh st now = true
  · constructor
    · intro hsrc
      exfalso
      simp [check_and_refresh_ticket, hf] at hsrc
    · intro hsrc
      exfalso
      simp [check_and_refresh_ticket, hf] at hsrc
  · have hff : ticketIsFresh st now = false := by
      revert hf; cases ticketIsFresh st now <;> simp
    have h := ticketRetryLoop_state_spec MAX_RETRIES st now fo
    simpa [check_and_refresh_ticket, hff] using h

/-- Witness for ticket_update_and_fallback_frame: a first fetch stores ticket,
region and timestamp together; three failed attempts over a stored ticket
return it and change nothing. -/
theorem ticket_update_and_fallback_frame_witness :
    (check_and_refresh_ticket ⟨none, none, 0⟩ 50
        (fun _ => FetchOutcome.ok "new" (some "eu"))).state
      = ⟨some "new", some "eu", 50⟩
      ∧ (check_and_refresh_ticket ⟨some "old", some "us", 7⟩ 5000
          (fun _ => FetchOutcome.exn)).state = ⟨some "old", some "us", 7⟩
      ∧ (check_and_refresh_ticket ⟨some "old", some "us", 7⟩ 5000
          (fun _ => FetchOutcome.exn)).outcome = some ("old", some "us") := by
  refine ⟨(ticket_update_and_fallback_frame ⟨none, none, 0⟩ 50
      (fun _ => FetchOutcome.ok "new" (some "eu"))).1 (by decide) "new" (some "eu")
        (by decide),
    ((ticket_update_and_fallback_frame ⟨some "old", some "us", 7⟩ 5000
      (fun _ => FetchOutcome.exn)).2 (by decide)).1,
    ((ticket_update_and_fallback_frame ⟨some "old", some "us", 7⟩ 5000
      (fun _ => FetchOutcome.exn)).2 (by decide)).2⟩

set_option maxHeartbeats 2000000 in
/-- Helper: parsing the serialised dict of a well-formed record with the class
selected by its kind field reconstructs the record exactly - every declared
field and every passthrough extra. -/
theorem parse_eventToDict (r : EventRecord) (h : wfEventRecord r = true) :
    parseEventDict (eventToDict r) = some r := by
  obtain ⟨i, k, c, d, n, hv, vp, kf, ex⟩ := r
  simp only [wfEventRecord, Bool.and_eq_true, List.all_eq_true] at h
  obtain ⟨hk, hx⟩ := h
  cases kf with
  | ding a =>
    simp only [kindMatchesFields, beq_iff_eq] at hk
    subst hk
    cases vp <;>
      (simp [parseEventDict, eventToDict, kindFieldsEntries, dictGet, parseStrField,
        parseKindFields, optStrJ, List.find?, List.filter, baseKeys, kindKeys]
       <;> (intro a2 b2 hab; simpa [baseKeys, kindKeys] using hx (a2, b2) hab))
  | motion sc =>
    simp only [kindMatchesFields, beq_iff_eq] at hk
    subst hk
    cases vp <;> cases sc <;>
      (simp [parseEventDict, eventToDict, kindFieldsEntries, dictGet, parseStrField,
        parseKindFields, optStrJ, List.find?, List.filter, baseKeys, kindKeys]
       <;> (intro a2 b2 hab; simpa [baseKeys, kindKeys] using hx (a2, b2) hab))
  | onDemand rq =>
    simp only [kindMatchesFields, beq_iff_eq] at hk
    subst hk
    cases vp <;> cases rq <;>
      (simp [parseEventDict, eventToDict, kindFieldsEntries, dictGet, parseStrField,
        parseKindFields, optStrJ, List.find?, List.filter, baseKeys, kindKeys]
       <;> (intro a2 b2 hab; simpa [baseKeys, kindKeys] using hx (a2, b2) hab))
  | generic =>
    simp only [kindMatchesFields, Bool.and_eq_true, bne_iff_ne] at hk
    obtain ⟨⟨h1, h2⟩, h3⟩ := hk
    cases vp <;>
      (simp [parseEventDict, eventToDict, kindFieldsEntries, dictGet, parseStrField,
        parseKindFields, optStrJ, List.find?, List.filter, baseKeys, kindKeys,
        h1, h2, h3]
       <;> (intro a2 b2 hab; simpa [baseKeys, kindKeys] using hx (a2, b2) hab))

/-- Helper: rebuilding the standard columns in front of the event_data JSON
(the retrieve_event merge of DatabaseStorage) gives back exactly the
serialised dict of a well-formed record. -/
theorem eventToDict_filter_std (r : EventRecord) (hwf : wfEventRecord r = true) :
    [("id", JValue.s r.id), ("kind", JValue.s r.kind),
      ("created_at", JValue.s r.created_at), ("device_id", JValue.s r.device_id),
      ("device_name", JValue.s r.device_name)]
      ++ (eventToDict r).filter
          (fun kv => !DatabaseStorage.standard_fields.contains kv.1)
      = eventToDict r := by
  obtain ⟨i, k, c, d, n, hv, vp, kf, ex⟩ := r
  simp only [wfEventRecord, Bool.and_eq_true, List.all_eq_true] at hwf
  obtain ⟨hk, hx⟩ := hwf
  have hx2 : ∀ a ∈ ex,
      (fun kv => !DatabaseStorage.standard_fields.contains kv.1) a = true := by
    intro a ha
    have := hx a ha
    simp [baseKeys, kindKeys, DatabaseStorage.standard_fields] at this ⊢
    tauto
  cases kf <;>
    (simp [eventToDict, kindFieldsEntries, DatabaseStorage.standard_fields,
      List.filter_append, List.filter]
     <;> (intro a2 b2 hab
          simpa [DatabaseStorage.standard_fields] using hx2 (a2, b2) hab))

/-- C9: on each storage backend, retrieve_event(r.id) performed right after
save_event(r) returns a record equal to r in every explicit field, and the
unknown passthrough fields round-trip unchanged.  The glob- and
select-based lookups need r.id to identify the saved event uniquely, which is
the storage id-uniqueness invariant. -/
theorem save_retrieve_roundtrip (r : EventRecord)
    (fs : FileStorage.Store) (ns : NetworkStorage.Store)
    (db : DatabaseStorage.Store)
    (hwf : wfEventRecord r = true)
    (hfs : fs.files.all (fun f => f.1.2.2 != r.id) = true)
    (hns : ns.files.all (fun f => f.1.2.2 != r.id) = true) :
    FileStorage.retrieve_event (FileStorage.save_event fs r).2 r.id = some r
      ∧ NetworkStorage.retrieve_event (NetworkStorage.save_event ns r).2 r.id
          = some r
      ∧ DatabaseStorage.retrieve_event (DatabaseStorage.save_event db r).2 r.id
          = some r := by
  refine ⟨?_, ?_, ?_⟩
  · simp [FileStorage.save_event, FileStorage.retrieve_event, List.find?,
      parse_eventToDict r hwf]
  · simp [NetworkStorage.save_event, NetworkStorage.retrieve_event, List.find?,
      parse_eventToDict r hwf]
  · simp only [DatabaseStorage.save_event, DatabaseStorage.retrieve_event,
      List.find?, beq_self_eq_true]
    rw [eventToDict_filter_std r hwf]
    exact parse_eventToDict r hwf

/-- Witness for save_retrieve_roundtrip: a motion record with a score and a
passthrough extra field round-trips through all three empty backends. -/
theorem save_retrieve_roundtrip_witness :
    FileStorage.retrieve_event
        (FileStorage.save_event ⟨[]⟩
          ⟨"evt-1", "motion", "2024-01-01T00:00:00", "dev-9", "Front", false,
            none, .motion (some 85), [("cv_extra", .s "person")]⟩).2 "evt-1"
      = some ⟨"evt-1", "motion", "2024-01-01T00:00:00", "dev-9", "Front", false,
          none, .motion (some 85), [("cv_extra", .s "person")]⟩
      ∧ NetworkStorage.retrieve_event
          (NetworkStorage.save_event ⟨[]⟩
            ⟨"evt-1", "motion", "2024-01-01T00:00:00", "dev-9", "Front", false,
              none, .motion (some 85), [("cv_extra", .s "person")]⟩).2 "evt-1"
        = some ⟨"evt-1", "motion", "2024-01-01T00:00:00", "dev-9", "Front", false,
            none, .motion (some 85), [("cv_extra", .s "person")]⟩
      ∧ DatabaseStorage.retrieve_event
          (DatabaseStorage.save_event ⟨[]⟩
            ⟨"evt-1", "motion", "2024-01-01T00:00:00", "dev-9", "Front", false,
              none, .motion (some 85), [("cv_extra", .s "person")]⟩).2 "evt-1"
        = some ⟨"evt-1", "motion", "2024-01-01T00:00:00", "dev-9", "Front", false,
            none, .motion (some 85), [("cv_extra", .s "person")]⟩ :=
  save_retrieve_roundtrip
    ⟨"evt-1", "motion", "2024-01-01T00:00:00", "dev-9", "Front", false,
      none, .motion (some 85), [("cv_extra", .s "person")]⟩
    ⟨[]⟩ ⟨[]⟩ ⟨[]⟩ (by decide) (by decide) (by decide)

/-- C10: FileStorage.save_event returns True on every non-raising call,
including when an event.json already exists at the event's path: the file is
silently overwritten, a single file with the new contents remains at that
path, and the False (already-exists) outcome of the storage interface is
never reported. -/
theorem file_save_event_always_true (fs : FileStorage.Store)
    (r r2 : EventRecord)
    (hsame : r2.device_id = r.device_id ∧ r2.kind = r.kind ∧ r2.id = r.id) :
    (FileStorage.save_event fs r).1 = true
      ∧ (FileStorage.save_event (FileStorage.save_event fs r).2 r2).1 = true
      ∧ ((FileStorage.save_event (FileStorage.save_event fs r).2 r2).2.files.filter
          (fun f => f.1 == (r.device_id, r.kind, r.id)))
        = [((r.device_id, r.kind, r.id), eventToDict r2)] := by
  obtain ⟨h1, h2, h3⟩ := hsame
  refine ⟨rfl, rfl, ?_⟩
  simp only [FileStorage.save_event, h1, h2, h3, List.filter_cons,
    List.filter_filter]
  simp [List.filter_eq_nil_iff]

/-- Witness for file_save_event_always_true: two saves of the same event id
on one path leave one overwritten file and both return True. -/
theorem file_save_event_always_true_witness :
    (FileStorage.save_event ⟨[]⟩
        ⟨"e1", "other", "t0", "dev", "Front", false, none, .generic, []⟩).1 = true
      ∧ (FileStorage.save_event
          (FileStorage.save_event ⟨[]⟩
            ⟨"e1", "other", "t0", "dev", "Front", false, none, .generic, []⟩).2
          ⟨"e1", "other", "t1", "dev", "Front", true, some "v.mp4", .generic, []⟩).1
        = true
      ∧ ((FileStorage.save_event
            (FileStorage.save_event ⟨[]⟩
              ⟨"e1", "other", "t0", "dev", "Front", false, none, .generic, []⟩).2
            ⟨"e1", "other", "t1", "dev", "Front", true, some "v.mp4", .generic,
              []⟩).2.files.filter (fun f => f.1 == ("dev", "other", "e1")))
        = [(("dev", "other", "e1"),
            eventToDict ⟨"e1", "other", "t1", "dev", "Front", true, some "v.mp4",
              .generic, []⟩)] :=
  file_save_event_always_true ⟨[]⟩
    ⟨"e1", "other", "t0", "dev", "Front", false, none, .generic, []⟩
    ⟨"e1", "other", "t1", "dev", "Front", true, some "v.mp4", .generic, []⟩
    ⟨rfl, rfl, rfl⟩

end RingRec
